import Mathlib

/-!
Verification of the Meal Outpost lead-qualification agent
(`src/meal_outpost/tools.py`, `src/meal_outpost/agent.py`, with the
tool-calling variant `src/tools_agent/meal_outpost/tools.py` holding an
identical copy of the scorer and partner search).

Python strings are embedded as `List Char`; Python `Optional[T]` as
`Option T`; Python truthiness (`if x:` on optionals, numbers, lists and
strings) is made explicit at each use site.  All definitions are
executable and all predicates decidable.
-/

/-! ## Python string primitives -/

/-- Python `str.lower()` (the data here is ASCII). -/
def pyLower (s : List Char) : List Char := s.map Char.toLower

/-- Python `str.strip()`: drop whitespace at both ends. -/
def pyStrip (s : List Char) : List Char :=
  ((s.dropWhile Char.isWhitespace).reverse.dropWhile Char.isWhitespace).reverse

/-- Python substring test `needle in hay` on strings. -/
def listContains (hay needle : List Char) : Bool :=
  (List.range (hay.length + 1)).any fun i => needle.isPrefixOf (hay.drop i)

/-- Python `str.title()` on ASCII text: the first letter of each run of
letters is uppercased, the rest lowercased. -/
def pyTitleAux : Bool → List Char → List Char
  | _, [] => []
  | prevAlpha, c :: cs =>
    if c.isAlpha then
      (if prevAlpha then c.toLower else c.toUpper) :: pyTitleAux true cs
    else
      c :: pyTitleAux false cs

/-- Python `str.title()`. -/
def pyTitle (s : List Char) : List Char := pyTitleAux false s

/-- Python `", ".join(parts)` generalised to any separator. -/
def pyJoin (sep : List Char) : List (List Char) → List Char
  | [] => []
  | [x] => x
  | x :: y :: xs => x ++ sep ++ pyJoin sep (y :: xs)

/-- The value of a run of decimal digits, as Python `int()` reads it. -/
def digitsToNat (ds : List Char) : Nat :=
  ds.foldl (fun n c => n * 10 + (c.toNat - 48)) 0

/-- Accumulator-based scan behind `findall_digits`: `cur` is the digit run
read so far, in reverse. -/
def findall_digits_aux : List Char → List Char → List (List Char)
  | [], cur => if cur.isEmpty then [] else [cur.reverse]
  | c :: cs, cur =>
    if c.isDigit then
      findall_digits_aux cs (c :: cur)
    else if cur.isEmpty then
      findall_digits_aux cs []
    else
      cur.reverse :: findall_digits_aux cs []

/-- Python `re.findall(r"\x5cd+", s)`: the maximal runs of digits of `s`,
in order. -/
def findall_digits (s : List Char) : List (List Char) :=
  findall_digits_aux s []

/-- Truthiness of Python `Optional[bool]`: `None` is falsy. -/
def pyOptBool : Option Bool → Bool
  | none => false
  | some b => b

/-- Truthiness of Python `Optional[int]`: `None` and `0` are falsy. -/
def pyOptIntTruthy : Option Int → Bool
  | none => false
  | some n => decide (n ≠ 0)

/-- Truthiness of Python `Optional[List[...]]`: `None` and `[]` are falsy. -/
def pyOptListTruthy {α : Type} : Option (List α) → Bool
  | none => false
  | some l => !l.isEmpty

/-- Truthiness of Python `Optional[str]`: `None` and `""` are falsy. -/
def pyOptStrTruthy : Option (List Char) → Bool
  | none => false
  | some s => !s.isEmpty

/-! ## `tools.py`: the qualification scorer -/

/-- The dict returned by `calculate_lead_score`. -/
structure LeadScore where
  status : String
  score : Int
  reasons : List String
  recommendation : String
deriving DecidableEq

/-- `_get_recommendation` from `src/meal_outpost/tools.py` lines 362-369. -/
def _get_recommendation (status : String) (_reasons : List String) : String :=
  if status = "Qualified" then
    "Route to sales team immediately - high-priority lead"
  else if status = "Maybe" then
    "Route to sales team for evaluation - potential opportunity"
  else
    "Capture information for future follow-up when expanding"

/-- The service-area block of `calculate_lead_score` (lines 320-325):
`if is_in_service_area: score += 50; reasons.append(...)` else the
out-of-area reason. -/
def lead_score_area_step (is_in_service_area : Bool) : Int × List String :=
  if is_in_service_area then
    (50, ["In service area"])
  else
    (0, ["Outside current service area"])

/-- The headcount block of `calculate_lead_score` (lines 327-336).  The
guard is Python `if headcount:` — truthiness, so `None` and `0` both skip
the whole block. -/
def lead_score_headcount_step (sr : Int × List String) (headcount : Option Int)
    (minimum_order_size : Int) : Int × List String :=
  match headcount with
  | none => sr
  | some h =>
    if h = 0 then sr
    else if minimum_order_size ≤ h then
      (sr.1 + 30, sr.2 ++ ["Meets minimum size (" ++ toString h ++ " people)"])
    else if 10 ≤ h then
      (sr.1 + 15, sr.2 ++ ["Below preferred minimum but substantial (" ++ toString h ++ " people)"])
    else
      (sr.1, sr.2 ++ ["Small order size (" ++ toString h ++ " people)"])

/-- The need-type block of `calculate_lead_score` (lines 338-344). -/
def lead_score_need_step (sr : Int × List String) (user_need : Option String) :
    Int × List String :=
  if user_need = some "recurring" then
    (sr.1 + 20, sr.2 ++ ["Recurring need (high value)"])
  else if user_need = some "one-time" then
    (sr.1 + 10, sr.2 ++ ["One-time event"])
  else
    sr

/-- `calculate_lead_score` from `src/meal_outpost/tools.py` lines 299-359
(the copy in `src/tools_agent/meal_outpost/tools.py` lines 238-298 is
byte-identical): the three sequential score/reason blocks, then the
70/40 status thresholds. -/
def calculate_lead_score (is_in_service_area : Bool) (headcount : Option Int)
    (user_need : Option String) (minimum_order_size : Int := 20) : LeadScore :=
  let sr := lead_score_need_step
    (lead_score_headcount_step (lead_score_area_step is_in_service_area)
      headcount minimum_order_size)
    user_need
  let status :=
    if 70 ≤ sr.1 then "Qualified"
    else if 40 ≤ sr.1 then "Maybe"
    else "Not Qualified"
  { status := status, score := sr.1, reasons := sr.2,
    recommendation := _get_recommendation status sr.2 }

/-! ### Characterisation lemmas for the scorer -/

lemma lead_score_area_step_fst (a : Bool) :
    (lead_score_area_step a).1 = if a then 50 else 0 := by
  cases a <;> rfl

lemma lead_score_headcount_step_fst (sr : Int × List String) (h : Option Int) (m : Int) :
    (lead_score_headcount_step sr h m).1 =
      sr.1 + (match h with
              | none => 0
              | some x => if x = 0 then 0 else if m ≤ x then 30 else if 10 ≤ x then 15 else 0) := by
  cases h with
  | none => simp [lead_score_headcount_step]
  | some x =>
    simp only [lead_score_headcount_step]
    split_ifs <;> simp

lemma lead_score_need_step_fst (sr : Int × List String) (u : Option String) :
    (lead_score_need_step sr u).1 =
      sr.1 + (if u = some "recurring" then 20 else if u = some "one-time" then 10 else 0) := by
  simp only [lead_score_need_step]
  split_ifs <;> simp

/-- The score of `calculate_lead_score`, in closed form. -/
lemma calculate_lead_score_score (a : Bool) (h : Option Int) (u : Option String) (m : Int) :
    (calculate_lead_score a h u m).score =
      (if a then 50 else 0)
      + (match h with
         | none => 0
         | some x => if x = 0 then 0 else if m ≤ x then 30 else if 10 ≤ x then 15 else 0)
      + (if u = some "recurring" then 20 else if u = some "one-time" then 10 else 0) := by
  show (lead_score_need_step (lead_score_headcount_step (lead_score_area_step a) h m) u).1 = _
  rw [lead_score_need_step_fst, lead_score_headcount_step_fst, lead_score_area_step_fst]

lemma lead_score_area_step_snd (a : Bool) :
    (lead_score_area_step a).2 =
      if a then ["In service area"] else ["Outside current service area"] := by
  cases a <;> rfl

lemma lead_score_headcount_step_snd (sr : Int × List String) (h : Option Int) (m : Int) :
    (lead_score_headcount_step sr h m).2 =
      sr.2 ++ (match h with
               | none => []
               | some x =>
                 if x = 0 then []
                 else if m ≤ x then ["Meets minimum size (" ++ toString x ++ " people)"]
                 else if 10 ≤ x then ["Below preferred minimum but substantial (" ++ toString x ++ " people)"]
                 else ["Small order size (" ++ toString x ++ " people)"]) := by
  cases h with
  | none => simp [lead_score_headcount_step]
  | some x =>
    simp only [lead_score_headcount_step]
    split_ifs <;> simp

lemma lead_score_need_step_snd (sr : Int × List String) (u : Option String) :
    (lead_score_need_step sr u).2 =
      sr.2 ++ (if u = some "recurring" then ["Recurring need (high value)"]
               else if u = some "one-time" then ["One-time event"] else []) := by
  simp only [lead_score_need_step]
  split_ifs <;> simp

/-- The reasons of `calculate_lead_score`, in closed form: one area entry,
then the headcount entry (absent when `headcount` is `None` or `0`), then
the need entry (absent for `exploring`/unknown). -/
lemma calculate_lead_score_reasons (a : Bool) (h : Option Int) (u : Option String) (m : Int) :
    (calculate_lead_score a h u m).reasons =
      (if a then ["In service area"] else ["Outside current service area"])
      ++ (match h with
          | none => []
          | some x =>
            if x = 0 then []
            else if m ≤ x then ["Meets minimum size (" ++ toString x ++ " people)"]
            else if 10 ≤ x then ["Below preferred minimum but substantial (" ++ toString x ++ " people)"]
            else ["Small order size (" ++ toString x ++ " people)"])
      ++ (if u = some "recurring" then ["Recurring need (high value)"]
          else if u = some "one-time" then ["One-time event"] else []) := by
  show (lead_score_need_step (lead_score_headcount_step (lead_score_area_step a) h m) u).2 = _
  rw [lead_score_need_step_snd, lead_score_headcount_step_snd, lead_score_area_step_snd]

/-- The status of `calculate_lead_score` is the 70/40 threshold of its own
score. -/
lemma calculate_lead_score_status (a : Bool) (h : Option Int) (u : Option String) (m : Int) :
    (calculate_lead_score a h u m).status =
      (if 70 ≤ (calculate_lead_score a h u m).score then "Qualified"
       else if 40 ≤ (calculate_lead_score a h u m).score then "Maybe"
       else "Not Qualified") := rfl

/-! ## `agent.py`: conversation state and stage nodes -/

/-- Message roles of the transcript (`HumanMessage` / `AIMessage`). -/
inductive Role where
  | human
  | ai
deriving DecidableEq

/-- One transcript entry. -/
structure Message where
  role : Role
  content : List Char
deriving DecidableEq

/-- The `ConversationState` TypedDict of `src/meal_outpost/agent.py`
lines 18-45. -/
structure ConversationState where
  messages : List Message
  user_need : Option String
  location_city : Option (List Char)
  location_state : Option String
  timing : Option (List Char)
  headcount : Option Int
  frequency : Option (List Char)
  cuisine_preferences : List (List Char)
  dietary_requirements : List (List Char)
  is_in_service_area : Option Bool
  meets_minimum : Option Bool
  qualification_status : Option String
  contact_name : Option String
  contact_email : Option (List Char)
  contact_phone : Option String
  conversation_stage : String
  ready_for_handoff : Bool
  notes : String
deriving DecidableEq

/-- `state["messages"][-1].content`: the latest transcript entry (the
driver appends the inbound turn before a node runs; on an empty
transcript Python would raise, here it reads as empty text). -/
def lastContent (ms : List Message) : List Char :=
  match ms.getLast? with
  | some m => m.content
  | none => []

/-- The payload `email_collection_node` hands to `send_notification`
(`notification_data`, lines 413-428 of `agent.py`). -/
structure Notification where
  contact_email : List Char
  location_city : Option (List Char)
  location_state : Option String
  need_type : Option String
  headcount : Option Int
  timing : Option (List Char)
  frequency : Option (List Char)
  cuisine_preferences : List (List Char)
  status : String
  in_service_area : Option Bool
  meets_minimum : Option Bool
deriving DecidableEq

/-- The dict `send_notification` (`tools.py` lines 373-425) returns: it
only formats and logs, always reporting success. -/
structure NotificationResult where
  success : Bool
  recipient : String
  message : String
  no_data_stored : Bool
deriving DecidableEq

/-- `send_notification` from `src/meal_outpost/tools.py` lines 373-425:
console logging aside, it returns the fixed success dict. -/
def send_notification (_lead_id : String) (_lead_data : Notification)
    (_routing_type : String) : NotificationResult :=
  { success := true, recipient := "sales@mealoutpost.com",
    message := "Email notification sent to sales team", no_data_stored := true }

/-- `greeting_node` (`agent.py` lines 155-174). -/
def greeting_node (state : ConversationState) : ConversationState :=
  if state.conversation_stage ≠ "greeting" then state else
  let greeting := "Hi! Welcome to Meal Outpost. I'm here to help you figure out if we can support your catering needs.\n\nWhat brings you to Meal Outpost today?\n\nAre you looking for:\n• One-time catering for a meeting or event?\n• A recurring meal program (daily/weekly lunches)?\n• Just exploring your options?"
  { state with messages := state.messages ++ [⟨Role.ai, greeting.data⟩],
               conversation_stage := "discovery" }

/-- `discovery_node` (`agent.py` lines 177-199): keyword detection of the
need type — the one-time list is tested first — then the location prompt. -/
def discovery_node (state : ConversationState) : ConversationState :=
  if state.conversation_stage ≠ "discovery" then state else
  let last_message := lastContent state.messages
  let lowered := pyLower last_message
  let user_need :=
    if ["meeting", "event", "one-time", "once"].any (fun w => listContains lowered w.data) then
      "one-time"
    else if ["recurring", "daily", "weekly", "program", "regular"].any
        (fun w => listContains lowered w.data) then
      "recurring"
    else
      "exploring"
  let response := "Great! Where are you looking to get catering? What city are you in?"
  { state with user_need := some user_need,
               messages := state.messages ++ [⟨Role.ai, response.data⟩],
               conversation_stage := "location" }

/-- The `service_cities` dict of `location_node` (`agent.py` lines 213-239),
as the ordered association list Python iterates over.  The key
`"Sacramento"` is kept with its capital S exactly as in the source (it can
never match the lowercased message). -/
def service_cities : List (List Char × String) := [
  ("new york".data, "NY"), ("nyc".data, "NY"), ("new york city".data, "NY"),
  ("los angeles".data, "CA"), ("la".data, "CA"),
  ("bellevue".data, "WA"), ("bellevue wa".data, "WA"),
  ("san francisco".data, "CA"), ("sf".data, "CA"),
  ("boston".data, "MA"), ("bos".data, "MA"),
  ("washington".data, "DC"), ("dc".data, "DC"),
  ("seattle".data, "WA"), ("sea".data, "WA"),
  ("herndon".data, "VA"), ("herndon va".data, "VA"),
  ("reston".data, "VA"), ("reston va".data, "VA"),
  ("alexandria".data, "VA"), ("alexandria va".data, "VA"),
  ("columbus".data, "OH"), ("columbus oh".data, "OH"),
  ("san diego".data, "CA"), ("san diego ca".data, "CA"),
  ("emeryville".data, "CA"), ("emeryville ca".data, "CA"),
  ("san jose".data, "CA"), ("san jose ca".data, "CA"),
  ("bridgeport".data, "CT"), ("bridgeport ct".data, "CT"),
  ("fairfield".data, "CT"), ("fairfield ct".data, "CT"),
  ("Sacramento".data, "CA"), ("sacramento ca".data, "CA"),
  ("raleigh".data, "NC"), ("raleigh nc".data, "NC"),
  ("durham".data, "NC"), ("durham nc".data, "NC"),
  ("cary".data, "NC"), ("cary nc".data, "NC"),
  ("charlotte".data, "NC"), ("charlotte nc".data, "NC"),
  ("culver city".data, "CA"), ("culver city ca".data, "CA"),
  ("san mateo".data, "CA"), ("san mateo ca".data, "CA"),
  ("santa monica".data, "CA"), ("santa monica ca".data, "CA"),
  ("sunnyvale".data, "CA"), ("sunnyvale ca".data, "CA")]

/-- `location_node` (`agent.py` lines 202-263): first city key contained
in the lowercased message wins; a miss sets `is_in_service_area` to
`False` and keeps the city fields unset. -/
def location_node (state : ConversationState) : ConversationState :=
  if state.conversation_stage ≠ "location" then state else
  let last_message := pyLower (lastContent state.messages)
  match service_cities.find? (fun p => listContains last_message p.1) with
  | some p =>
    let city_found := pyTitle p.1
    let response := "Perfect! We serve ".data ++ city_found
      ++ " and have great restaurant partners there.\n\nWhen are you looking to have catering?".data
    { state with location_city := some city_found,
                 location_state := some p.2,
                 is_in_service_area := some true,
                 messages := state.messages ++ [⟨Role.ai, response⟩],
                 conversation_stage := "timing" }
  | none =>
    let response := "I appreciate you sharing that! We don't currently serve that area, but I'd still love to learn more about your needs. We're always expanding, and I can connect you with our team.\n\nWhen are you looking to have catering?"
    { state with is_in_service_area := some false,
                 messages := state.messages ++ [⟨Role.ai, response.data⟩],
                 conversation_stage := "timing" }

/-- `timing_node` (`agent.py` lines 266-279). -/
def timing_node (state : ConversationState) : ConversationState :=
  if state.conversation_stage ≠ "timing" then state else
  let last_message := lastContent state.messages
  let response := "Got it! How many people are you looking to feed?"
  { state with timing := some last_message,
               messages := state.messages ++ [⟨Role.ai, response.data⟩],
               conversation_stage := "scale" }

/-- `scale_node` (`agent.py` lines 282-306): the first digit run of the
inbound message, when there is one, becomes `headcount`, and
`meets_minimum` is derived as `headcount >= 20`; then the next prompt
depends on `user_need == "recurring"`. -/
def scale_node (state : ConversationState) : ConversationState :=
  if state.conversation_stage ≠ "scale" then state else
  let last_message := lastContent state.messages
  let numbers := findall_digits last_message
  let state :=
    match numbers with
    | [] => state
    | ds :: _ =>
      { state with headcount := some ((digitsToNat ds : Nat) : Int),
                   meets_minimum := some (decide ((20 : Int) ≤ ((digitsToNat ds : Nat) : Int))) }
  if state.user_need = some "recurring" then
    let response := "And how often would you need catering? Daily, weekly, or something else?"
    { state with messages := state.messages ++ [⟨Role.ai, response.data⟩],
                 conversation_stage := "frequency" }
  else
    let response := "Thanks! Do you have any cuisine preferences or dietary requirements? (e.g., Italian, vegetarian, gluten-free)"
    { state with messages := state.messages ++ [⟨Role.ai, response.data⟩],
                 conversation_stage := "preferences" }

/-- `frequency_node` (`agent.py` lines 309-321). -/
def frequency_node (state : ConversationState) : ConversationState :=
  if state.conversation_stage ≠ "frequency" then state else
  let response := "Perfect! Do you have any cuisine preferences or dietary requirements? (e.g., Italian, vegetarian, gluten-free)"
  { state with frequency := some (lastContent state.messages),
               messages := state.messages ++ [⟨Role.ai, response.data⟩],
               conversation_stage := "preferences" }

/-- `preferences_node` (`agent.py` lines 324-335): the raw inbound text
becomes a one-element preference list; no reply is emitted. -/
def preferences_node (state : ConversationState) : ConversationState :=
  if state.conversation_stage ≠ "preferences" then state else
  { state with cuisine_preferences := [lastContent state.messages],
               conversation_stage := "restaurant_partners" }

/-- `get_restaurant_partners_node` (`agent.py` lines 338-362): a canned
showcase (in area, truthiness of the optional boolean) or an
expansion-interest message. -/
def get_restaurant_partners_node (state : ConversationState) : ConversationState :=
  if state.conversation_stage ≠ "restaurant_partners" then state else
  if pyOptBool state.is_in_service_area then
    let response := "Great choices! In ".data
      ++ (match state.location_city with | some c => c | none => "None".data)
      ++ ", we work with some excellent restaurant partners that could be perfect for you:\n\n• **Ben's Fast Food** - Healthy delicious bowls with a variety of options\n• **Pokeworks** - Incredible poke bowls with a variety of options\n• **Starbird Chicken** - Delicious chicken meals \n\nPlus many other partners in your area! We can match you with the perfect fit for your needs.\n\nWould you like me to connect you with our team who can provide personalized recommendations and pricing?".data
    { state with messages := state.messages ++ [⟨Role.ai, response⟩],
                 conversation_stage := "contact_capture" }
  else
    let response := "Based on what you've shared, this sounds like a great fit for the type of service we provide! Even though we don't serve your area yet, we're always expanding.\n\nWould you like me to connect you with our team? They can discuss potential options or keep you updated on when we expand to your region."
    { state with messages := state.messages ++ [⟨Role.ai, response.data⟩],
                 conversation_stage := "contact_capture" }

/-- `contact_capture_node` (`agent.py` lines 365-386): an affirmative
keyword advances to `email_collection`, anything else closes the
conversation (`end`). -/
def contact_capture_node (state : ConversationState) : ConversationState :=
  if state.conversation_stage ≠ "contact_capture" then state else
  let last_message := pyLower (lastContent state.messages)
  if listContains last_message "yes".data || listContains last_message "sure".data
      || listContains last_message "please".data then
    let response := "Perfect! What's the best email address to reach you at?\n\n(Our team typically responds within a few hours during business hours)"
    { state with messages := state.messages ++ [⟨Role.ai, response.data⟩],
                 conversation_stage := "email_collection" }
  else
    let response := "No problem! If you change your mind, you can always reach our team at sales@mealoutpost.com.\n\nIs there anything else I can help you understand about Meal Outpost?"
    { state with messages := state.messages ++ [⟨Role.ai, response.data⟩],
                 conversation_stage := "end" }

/-- `email_collection_node` (`agent.py` lines 389-448).  The email is the
trimmed raw inbound text; the qualification is computed by the node's own
rule (truthiness of the optional fields as in Python:
`state["is_in_service_area"] and state["meets_minimum"]`, then
`state["is_in_service_area"] or (state["headcount"] and state["headcount"] >= 10)`);
the notification payload is built and dispatched exactly once, the second
component of the result. -/
def email_collection_node (state : ConversationState) :
    ConversationState × List Notification :=
  if state.conversation_stage ≠ "email_collection" then (state, []) else
  let email := pyStrip (lastContent state.messages)
  let qual_status :=
    if pyOptBool state.is_in_service_area && pyOptBool state.meets_minimum then
      "Qualified"
    else if pyOptBool state.is_in_service_area
        || (pyOptIntTruthy state.headcount
            && decide ((10 : Int) ≤ state.headcount.getD 0)) then
      "Maybe"
    else
      "Not Qualified"
  let notification_data : Notification :=
    { contact_email := email,
      location_city := state.location_city,
      location_state := state.location_state,
      need_type := state.user_need,
      headcount := state.headcount,
      timing := state.timing,
      frequency := state.frequency,
      cuisine_preferences := state.cuisine_preferences,
      status := qual_status,
      in_service_area := state.is_in_service_area,
      meets_minimum := state.meets_minimum }
  let response := "Thanks, ".data ++ email
    ++ "! I've notified our team about your catering needs.\n\nHere's a quick summary:\n- Location: ".data
    ++ (if pyOptStrTruthy state.location_city then state.location_city.getD []
        else "Outside current service area".data)
    ++ "\n- Need: ".data
    ++ (match state.user_need with | some u => u.data | none => "None".data)
    ++ "\n- Group size: ".data
    ++ (match state.headcount with | some n => (toString n).data | none => "None".data)
    ++ " people\n- Timing: ".data
    ++ (match state.timing with | some t => t | none => "None".data)
    ++ "\n\nSomeone from our team will reach out to you within 24 hours!\n\nIs there anything else you'd like to know in the meantime?".data
  ({ state with contact_email := some email,
                qualification_status := some qual_status,
                ready_for_handoff := true,
                messages := state.messages ++ [⟨Role.ai, response⟩],
                conversation_stage := "handoff" },
   [notification_data])

/-- `handoff_node` (`agent.py` lines 451-467). -/
def handoff_node (state : ConversationState) : ConversationState :=
  if state.conversation_stage ≠ "handoff" then state else
  let response := "Perfect! Thanks so much for chatting with me today. Our team has all your details and will be in touch soon.\n\nHave a great day! 🎉"
  { state with messages := state.messages ++ [⟨Role.ai, response.data⟩],
               conversation_stage := "complete" }

/-- The eleven stage nodes registered on the graph (`build_graph`,
`agent.py` lines 502-569). -/
inductive NodeId where
  | greeting | discovery | location | timing | scale | frequency | preferences
  | restaurant_partners | contact_capture | email_collection | handoff
deriving DecidableEq

/-- The stage each node implements (the string its guard compares with). -/
def stage_of_node : NodeId → String
  | .greeting => "greeting"
  | .discovery => "discovery"
  | .location => "location"
  | .timing => "timing"
  | .scale => "scale"
  | .frequency => "frequency"
  | .preferences => "preferences"
  | .restaurant_partners => "restaurant_partners"
  | .contact_capture => "contact_capture"
  | .email_collection => "email_collection"
  | .handoff => "handoff"

/-- One node invocation, with the notifications it dispatches (only
`email_collection_node` ever dispatches any). -/
def runNode : NodeId → ConversationState → ConversationState × List Notification
  | .greeting, s => (greeting_node s, [])
  | .discovery, s => (discovery_node s, [])
  | .location, s => (location_node s, [])
  | .timing, s => (timing_node s, [])
  | .scale, s => (scale_node s, [])
  | .frequency, s => (frequency_node s, [])
  | .preferences, s => (preferences_node s, [])
  | .restaurant_partners, s => (get_restaurant_partners_node s, [])
  | .contact_capture, s => (contact_capture_node s, [])
  | .email_collection, s => email_collection_node s
  | .handoff, s => (handoff_node s, [])

/-- A finite sequence of node invocations, with the total count of
notification dispatches. -/
def runNodes : List NodeId → ConversationState → ConversationState × Nat
  | [], s => (s, 0)
  | n :: ns, s =>
    let r := runNode n s
    let rest := runNodes ns r.1
    (rest.1, r.2.length + rest.2)

/-- The fresh `ConversationState` a session starts from (the
`initial_state` literal of `test_agent.py` lines 109-128). -/
def initialState : ConversationState :=
  { messages := [], user_need := none, location_city := none,
    location_state := none, timing := none, headcount := none,
    frequency := none, cuisine_preferences := [], dietary_requirements := [],
    is_in_service_area := none, meets_minimum := none,
    qualification_status := none, contact_name := none, contact_email := none,
    contact_phone := none, conversation_stage := "greeting",
    ready_for_handoff := false, notes := "" }

/-! ## `tools.py`: restaurant partners and the filtered search -/

/-- The `RestaurantPartner` pydantic model (`tools.py` lines 14-23). -/
structure RestaurantPartner where
  name : List Char
  city : List Char
  state : List Char
  cuisine_type : List (List Char)
  description : List Char
  capacity : List Char
  dietary_options : List (List Char)
  avg_price_per_person : List Char
deriving DecidableEq

/-- The static `RESTAURANT_PARTNERS` table (`tools.py` lines 126-192), in
source order. -/
def RESTAURANT_PARTNERS : List RestaurantPartner := [
  { name := "Ben's Fast Food".data, city := "New York City".data, state := "NY".data,
    cuisine_type := ["Italian".data],
    description := "Healthy delicious bowls with a variety of options".data,
    capacity := "large".data,
    dietary_options := ["vegetarian".data, "gluten-free".data],
    avg_price_per_person := "$25-35".data },
  { name := "Pokeworks".data, city := "New York City".data, state := "NY".data,
    cuisine_type := ["Healthy".data, "Vegetarian".data],
    description := "Incredible poke bowls with a variety of options".data,
    capacity := "medium".data,
    dietary_options := ["vegetarian".data, "vegan".data, "gluten-free".data, "dairy-free".data],
    avg_price_per_person := "$18-28".data },
  { name := "Starbird Chicken".data, city := "New York City".data, state := "NY".data,
    cuisine_type := ["BBQ".data, "American".data],
    description := "Delicious chicken meals".data,
    capacity := "large".data,
    dietary_options := ["gluten-free".data],
    avg_price_per_person := "$22-32".data },
  { name := "Pokeworks".data, city := "Los Angeles".data, state := "CA".data,
    cuisine_type := ["Seafood".data, "California Cuisine".data],
    description := "Incredible poke bowls with a variety of options".data,
    capacity := "medium".data,
    dietary_options := ["vegetarian".data, "gluten-free".data, "pescatarian".data],
    avg_price_per_person := "$28-38".data },
  { name := "Starbird Chicken".data, city := "Los Angeles".data, state := "CA".data,
    cuisine_type := ["Mexican".data, "Latin".data],
    description := "Delicious chicken meals".data,
    capacity := "large".data,
    dietary_options := ["vegetarian".data, "vegan".data, "gluten-free".data],
    avg_price_per_person := "$16-24".data },
  { name := "Curry Up Now".data, city := "San Francisco".data, state := "CA".data,
    cuisine_type := ["Healthy".data, "Indian Street Food".data],
    description := "Modern Indian street food with authentic flavors".data,
    capacity := "medium".data,
    dietary_options := ["vegetarian".data, "vegan".data, "gluten-free".data, "dairy-free".data],
    avg_price_per_person := "$19-27".data }]

/-- The dicts `get_restaurant_partners` appends to `matches`
(`tools.py` lines 284-291). -/
structure PartnerResult where
  name : List Char
  cuisine : List Char
  description : List Char
  capacity : List Char
  dietary_options : List Char
  avg_price : List Char
deriving DecidableEq

/-- The projection of a table row into a result dict (`tools.py` lines
284-291). -/
def restaurant_to_result (r : RestaurantPartner) : PartnerResult :=
  { name := r.name,
    cuisine := pyJoin ", ".data r.cuisine_type,
    description := r.description,
    capacity := r.capacity,
    dietary_options := pyJoin ", ".data r.dietary_options,
    avg_price := r.avg_price_per_person }

/-- The `capacity_order` dict lookup `capacity_order.get(key, 0)`
(`tools.py` line 280-281). -/
def capacity_order_get (s : List Char) : Nat :=
  if s = "small".data then 1
  else if s = "medium".data then 2
  else if s = "large".data then 3
  else 0

/-- The body of the `for restaurant in RESTAURANT_PARTNERS` filter
(`tools.py` lines 255-282): city substring match, then the three
optional filters, each skipped when its argument is falsy (Python `if
cuisine_type:` on an optional list, `if capacity:` on an optional
string). -/
def restaurant_matches_filters (city_lower : List Char)
    (cuisine_type : Option (List (List Char))) (dietary_needs : Option (List (List Char)))
    (capacity : Option (List Char)) (r : RestaurantPartner) : Bool :=
  listContains (pyLower r.city) city_lower
  && (if pyOptListTruthy cuisine_type then
        (cuisine_type.getD []).any
          (fun c => (r.cuisine_type.map pyLower).contains (pyLower c))
      else true)
  && (if pyOptListTruthy dietary_needs then
        (dietary_needs.getD []).any
          (fun d => (r.dietary_options.map pyLower).contains (pyLower d))
      else true)
  && (if pyOptStrTruthy capacity then
        !(capacity_order_get (pyLower r.capacity)
            < capacity_order_get (pyLower (capacity.getD [])))
      else true)

/-- The accumulation loop of `get_restaurant_partners`: a passing row is
appended and the loop breaks once `len(matches) >= limit` — the check
runs after the append (`tools.py` lines 293-294). -/
def gather_partners (filt : RestaurantPartner → Bool) (limit : Nat) :
    List RestaurantPartner → List PartnerResult → List PartnerResult
  | [], acc => acc
  | r :: rs, acc =>
    if filt r then
      let acc2 := acc ++ [restaurant_to_result r]
      if limit ≤ acc2.length then acc2
      else gather_partners filt limit rs acc2
    else
      gather_partners filt limit rs acc

/-- `get_restaurant_partners` from `src/meal_outpost/tools.py` lines
232-296 (the copy in `src/tools_agent/meal_outpost/tools.py` lines
172-235 differs only in dropping the `avg_price` key of the result
dict). -/
def get_restaurant_partners (city : List Char)
    (cuisine_type : Option (List (List Char)) := none)
    (dietary_needs : Option (List (List Char)) := none)
    (capacity : Option (List Char) := none) (limit : Nat := 5) : List PartnerResult :=
  let city_lower := pyStrip (pyLower city)
  gather_partners (restaurant_matches_filters city_lower cuisine_type dietary_needs capacity)
    limit RESTAURANT_PARTNERS []

/-- Closed form of the loop when the accumulator is still short of the
limit: the first acc in table order, cut at the limit. -/
lemma gather_partners_eq (filt : RestaurantPartner → Bool) (limit : Nat) :
    ∀ (table : List RestaurantPartner) (acc : List PartnerResult),
      acc.length < limit →
      gather_partners filt limit table acc =
        acc ++ ((table.filter filt).map restaurant_to_result).take (limit - acc.length) := by
  intro table
  induction table with
  | nil => intro acc _; simp [gather_partners]
  | cons r rs ih =>
    intro acc hlt
    by_cases hf : filt r
    · simp only [gather_partners, hf, if_true, List.filter_cons_of_pos, List.map_cons]
      by_cases hstop : limit ≤ (acc ++ [restaurant_to_result r]).length
      · rw [if_pos hstop]
        have hlen : acc.length + 1 = limit := by
          simp only [List.length_append, List.length_singleton] at hstop
          omega
        have : limit - acc.length = 1 := by omega
        rw [this]
        simp
      · rw [if_neg hstop]
        have hlt2 : (acc ++ [restaurant_to_result r]).length < limit := by
          simp only [List.length_append, List.length_singleton] at hstop ⊢
          omega
        rw [ih _ hlt2]
        have : limit - acc.length = (limit - (acc ++ [restaurant_to_result r]).length) + 1 := by
          simp only [List.length_append, List.length_singleton]
          omega
        rw [this]
        simp [List.take_succ_cons]
    · have h1 : gather_partners filt limit (r :: rs) acc = gather_partners filt limit rs acc := by
        simp [gather_partners, hf]
      have h2 : List.filter filt (r :: rs) = List.filter filt rs := by
        simp [List.filter_cons, hf]
      rw [h1, h2]
      exact ih acc hlt

/-! ## Claim theorems: the scorer -/

/-- C1: with the default `minimum_order_size` of 20, the score of
`calculate_lead_score` is the sum of 50 for the service area, the
20/10-headcount tier points and the need-type points, its status is
exactly the 70/40 thresholding of that score, and on
`(true, 50, "recurring")` it returns status `Qualified`, score 100 and
exactly 3 reasons (determinism holds because the embedding is a pure
function of its arguments). -/
theorem calculate_lead_score_spec :
    (∀ (a : Bool) (h : Option Int) (u : Option String),
      (calculate_lead_score a h u 20).score =
        (if a then 50 else 0)
        + (match h with
           | none => 0
           | some x => if 20 ≤ x then 30 else if 10 ≤ x then 15 else 0)
        + (if u = some "recurring" then 20 else if u = some "one-time" then 10 else 0))
    ∧ (∀ (a : Bool) (h : Option Int) (u : Option String),
      (calculate_lead_score a h u 20).status =
        (if 70 ≤ (calculate_lead_score a h u 20).score then "Qualified"
         else if 40 ≤ (calculate_lead_score a h u 20).score then "Maybe"
         else "Not Qualified"))
    ∧ (calculate_lead_score true (some 50) (some "recurring") 20).status = "Qualified"
    ∧ (calculate_lead_score true (some 50) (some "recurring") 20).score = 100
    ∧ (calculate_lead_score true (some 50) (some "recurring") 20).reasons.length = 3 := by
  refine ⟨?_, ?_, by decide, by decide, by decide⟩
  · intro a h u
    rw [calculate_lead_score_score]
    rcases h with _ | x
    · rfl
    · have : (if x = 0 then (0 : Int) else if (20 : Int) ≤ x then 30 else if 10 ≤ x then 15 else 0)
          = (if (20 : Int) ≤ x then 30 else if 10 ≤ x then 15 else 0) := by
        split_ifs <;> omega
      simp only [this]
  · intro a h u
    exact calculate_lead_score_status a h u 20

/-- C4 counterexample: `headcount = 0` is a known headcount, yet Python
truthiness (`if headcount:`) skips the whole headcount block, so no
"Small order size" reason is appended — the reason list is just the area
entry. -/
theorem calculate_lead_score_zero_headcount_counterexample :
    (calculate_lead_score true (some 0) none 20).reasons = ["In service area"]
    ∧ ("Small order size (" ++ toString (0 : Int) ++ " people)")
        ∉ (calculate_lead_score true (some 0) none 20).reasons := by
  exact ⟨by decide, by decide⟩

/-- C4 (amended): for every known NONZERO headcount `x` the headcount
step appends exactly one reason and contributes `+30` (meets minimum),
`+15` (at least 10) or `+0` (small order) as the claim says; `headcount`
values `None` and `0` both contribute nothing and append no reason. -/
theorem calculate_lead_score_headcount_reasons (a : Bool) (u : Option String)
    (m x : Int) (hx : x ≠ 0) :
    ((calculate_lead_score a (some x) u m).reasons.length
        = (calculate_lead_score a none u m).reasons.length + 1)
    ∧ (m ≤ x →
        (calculate_lead_score a (some x) u m).score
            = (calculate_lead_score a none u m).score + 30
        ∧ (calculate_lead_score a (some x) u m).reasons
            = (calculate_lead_score a none u m).reasons.take 1
              ++ ["Meets minimum size (" ++ toString x ++ " people)"]
              ++ (calculate_lead_score a none u m).reasons.drop 1)
    ∧ (¬ m ≤ x → 10 ≤ x →
        (calculate_lead_score a (some x) u m).score
            = (calculate_lead_score a none u m).score + 15
        ∧ (calculate_lead_score a (some x) u m).reasons
            = (calculate_lead_score a none u m).reasons.take 1
              ++ ["Below preferred minimum but substantial (" ++ toString x ++ " people)"]
              ++ (calculate_lead_score a none u m).reasons.drop 1)
    ∧ (¬ m ≤ x → ¬ 10 ≤ x →
        (calculate_lead_score a (some x) u m).score
            = (calculate_lead_score a none u m).score
        ∧ (calculate_lead_score a (some x) u m).reasons
            = (calculate_lead_score a none u m).reasons.take 1
              ++ ["Small order size (" ++ toString x ++ " people)"]
              ++ (calculate_lead_score a none u m).reasons.drop 1) := by
  have hs := calculate_lead_score_score a (some x) u m
  have hs0 := calculate_lead_score_score a none u m
  have hr := calculate_lead_score_reasons a (some x) u m
  have hr0 := calculate_lead_score_reasons a none u m
  simp only at hs hs0 hr hr0
  refine ⟨?_, fun h1 => ⟨?_, ?_⟩, fun h1 h2 => ⟨?_, ?_⟩, fun h1 h2 => ⟨?_, ?_⟩⟩
  · rw [hr, hr0, if_neg hx]
    cases a <;> split_ifs <;> rfl
  · rw [hs, hs0, if_neg hx, if_pos h1]; omega
  · rw [hr, hr0, if_neg hx, if_pos h1]
    cases a <;> simp
  · rw [hs, hs0, if_neg hx, if_neg h1, if_pos h2]; omega
  · rw [hr, hr0, if_neg hx, if_neg h1, if_pos h2]
    cases a <;> simp
  · rw [hs, hs0, if_neg hx, if_neg h1, if_neg h2]
  · rw [hr, hr0, if_neg hx, if_neg h1, if_neg h2]
    cases a <;> simp

/-- C4 witness: at `(true, 25, None, 20)` the meets-minimum branch of the
headcount step adds 30 points and one reason. -/
theorem calculate_lead_score_headcount_reasons_witness :
    (calculate_lead_score true (some 25) none 20).score
        = (calculate_lead_score true none none 20).score + 30
    ∧ (calculate_lead_score true (some 25) none 20).reasons
        = (calculate_lead_score true none none 20).reasons.take 1
          ++ ["Meets minimum size (" ++ toString (25 : Int) ++ " people)"]
          ++ (calculate_lead_score true none none 20).reasons.drop 1 :=
  (calculate_lead_score_headcount_reasons true none 20 25 (by decide)).2.1 (by decide)

/-- The headcount tiers of the monotonicity property (unknown or below
10, then at least 10, then at least 20), stated from the spec's words to
formalise claim C7. -/
def spec_headcount_tier : Option Int → Nat
  | none => 0
  | some x => if 20 ≤ x then 2 else if 10 ≤ x then 1 else 0

/-- At the default threshold 20, the headcount points of the scorer are
15 points per tier. -/
lemma head_points_eq_tier (h : Option Int) :
    (match h with
     | none => (0 : Int)
     | some x => if x = 0 then 0 else if (20 : Int) ≤ x then 30 else if 10 ≤ x then 15 else 0)
    = 15 * (spec_headcount_tier h : Int) := by
  rcases h with _ | x
  · simp [spec_headcount_tier]
  · simp only [spec_headcount_tier]
    split_ifs <;> simp_all

/-- C7: with the default `minimum_order_size` of 20, the score of
`calculate_lead_score` never decreases when the service-area flag turns
true, when the headcount moves to a higher tier, or when the need moves
from unknown/exploring to one-time or from one-time to recurring, the
other two arguments held fixed. -/
theorem calculate_lead_score_monotone :
    (∀ (h : Option Int) (u : Option String),
      (calculate_lead_score false h u 20).score ≤ (calculate_lead_score true h u 20).score)
    ∧ (∀ (a : Bool) (u : Option String) (h1 h2 : Option Int),
      spec_headcount_tier h1 ≤ spec_headcount_tier h2 →
      (calculate_lead_score a h1 u 20).score ≤ (calculate_lead_score a h2 u 20).score)
    ∧ (∀ (a : Bool) (h : Option Int),
      (calculate_lead_score a h none 20).score
          ≤ (calculate_lead_score a h (some "one-time") 20).score
      ∧ (calculate_lead_score a h (some "exploring") 20).score
          ≤ (calculate_lead_score a h (some "one-time") 20).score
      ∧ (calculate_lead_score a h (some "one-time") 20).score
          ≤ (calculate_lead_score a h (some "recurring") 20).score) := by
  refine ⟨?_, ?_, ?_⟩
  · intro h u
    rw [calculate_lead_score_score, calculate_lead_score_score]
    rcases h with _ | x <;> dsimp only <;> split_ifs <;>
      first | contradiction | omega
  · intro a u h1 h2 htier
    rw [calculate_lead_score_score, calculate_lead_score_score,
      head_points_eq_tier, head_points_eq_tier]
    split_ifs <;> omega
  · intro a h
    refine ⟨?_, ?_, ?_⟩ <;>
      rw [calculate_lead_score_score, calculate_lead_score_score] <;>
      rcases h with _ | x <;> dsimp only <;> split_ifs <;>
      first | contradiction | rfl | omega

/-- C7 witness: raising the headcount from tier 0 (5 people) to tier 1
(15 people) does not decrease the score. -/
theorem calculate_lead_score_monotone_witness :
    (calculate_lead_score true (some 5) none 20).score
      ≤ (calculate_lead_score true (some 15) none 20).score :=
  calculate_lead_score_monotone.2.1 true none (some 5) (some 15) (by decide)

/-! ## Claim theorems: the partner search -/

/-- The city conjunct of a passing row of the partner-search filter. -/
lemma restaurant_matches_filters_city {cl : List Char}
    {ct dn : Option (List (List Char))} {cap : Option (List Char)}
    {r : RestaurantPartner} (h : restaurant_matches_filters cl ct dn cap r = true) :
    listContains (pyLower r.city) cl = true := by
  simp only [restaurant_matches_filters, Bool.and_eq_true] at h
  exact h.1.1.1

/-- C8 (amended): for every positive limit `N`, the partner search
returns the first `N` matches of the table in order, hence at most `N`
results, each of them the projection of a table row whose lowercased
city contains the normalized query city as a substring.  (For `N = 0`
the bound fails — see the counterexample — because the loop checks
`len(acc) >= limit` only after appending.) -/
theorem get_restaurant_partners_spec (city : List Char)
    (ct dn : Option (List (List Char))) (cap : Option (List Char)) (limit : Nat)
    (hl : 1 ≤ limit) :
    get_restaurant_partners city ct dn cap limit
      = ((RESTAURANT_PARTNERS.filter
            (restaurant_matches_filters (pyStrip (pyLower city)) ct dn cap)).map
          restaurant_to_result).take limit
    ∧ (get_restaurant_partners city ct dn cap limit).length ≤ limit
    ∧ ∀ p ∈ get_restaurant_partners city ct dn cap limit,
        ∃ r ∈ RESTAURANT_PARTNERS,
          listContains (pyLower r.city) (pyStrip (pyLower city)) = true
          ∧ p = restaurant_to_result r := by
  have h1 : get_restaurant_partners city ct dn cap limit
      = ((RESTAURANT_PARTNERS.filter
            (restaurant_matches_filters (pyStrip (pyLower city)) ct dn cap)).map
          restaurant_to_result).take limit := by
    have heq := gather_partners_eq
      (restaurant_matches_filters (pyStrip (pyLower city)) ct dn cap) limit
      RESTAURANT_PARTNERS [] (by simpa using hl)
    simpa [get_restaurant_partners] using heq
  refine ⟨h1, ?_, ?_⟩
  · rw [h1, List.length_take]
    exact min_le_left _ _
  · intro p hp
    rw [h1] at hp
    have hp2 := List.mem_of_mem_take hp
    rcases List.mem_map.1 hp2 with ⟨r, hr, hpr⟩
    rcases List.mem_filter.1 hr with ⟨hrT, hrF⟩
    exact ⟨r, hrT, restaurant_matches_filters_city hrF, hpr.symm⟩

/-- C8 witness: searching New York City with limit 2 returns the first
two matches in table order. -/
theorem get_restaurant_partners_spec_witness :
    get_restaurant_partners "new york city".data none none none 2
      = ((RESTAURANT_PARTNERS.filter
            (restaurant_matches_filters (pyStrip (pyLower "new york city".data)) none none none)).map
          restaurant_to_result).take 2
    ∧ (get_restaurant_partners "new york city".data none none none 2).length ≤ 2
    ∧ ∀ p ∈ get_restaurant_partners "new york city".data none none none 2,
        ∃ r ∈ RESTAURANT_PARTNERS,
          listContains (pyLower r.city) (pyStrip (pyLower "new york city".data)) = true
          ∧ p = restaurant_to_result r :=
  get_restaurant_partners_spec "new york city".data none none none 2 (by decide)

/-- C8 counterexample: with `limit = 0` the search still returns one
result for a matching city, because the loop appends before testing
`len(acc) >= limit` — so "at most N results for every limit N" fails at
N = 0. -/
theorem get_restaurant_partners_limit_zero_counterexample :
    (get_restaurant_partners "new york city".data none none none 0).length = 1 := by
  decide

/-- C10: an unrecognized capacity string (not small/medium/large after
lowercasing) maps to rank 0 in `capacity_order.get(..., 0)`, and rank 0
never exceeds a row's rank, so the capacity filter drops nothing: the
search result equals the capacity-less call. -/
theorem get_restaurant_partners_unknown_capacity (city : List Char)
    (ct dn : Option (List (List Char))) (cap : List Char) (limit : Nat)
    (h1 : pyLower cap ≠ "small".data) (h2 : pyLower cap ≠ "medium".data)
    (h3 : pyLower cap ≠ "large".data) :
    get_restaurant_partners city ct dn (some cap) limit
      = get_restaurant_partners city ct dn none limit := by
  have hfilt : restaurant_matches_filters (pyStrip (pyLower city)) ct dn (some cap)
      = restaurant_matches_filters (pyStrip (pyLower city)) ct dn none := by
    funext r
    simp only [restaurant_matches_filters]
    congr 1
    by_cases hc : pyOptStrTruthy (some cap) = true
    · have hz : capacity_order_get (pyLower ((some cap : Option (List Char)).getD [])) = 0 := by
        simp only [Option.getD, capacity_order_get, h1, h2, h3, if_false]
      rw [if_pos hc, hz]
      simp [pyOptStrTruthy]
    · rw [if_neg hc]
      simp [pyOptStrTruthy]
  simp only [get_restaurant_partners, hfilt]

/-- C10 witness: the junk capacity "huge" filters out nothing in the New
York City search. -/
theorem get_restaurant_partners_unknown_capacity_witness :
    get_restaurant_partners "new york city".data none none (some "huge".data) 5
      = get_restaurant_partners "new york city".data none none none 5 :=
  get_restaurant_partners_unknown_capacity "new york city".data none none "huge".data 5
    (by decide) (by decide) (by decide)

/-! ## Claim theorems: the state machine -/

/-- C5: every stage node invoked on a state whose `conversation_stage` is
not the stage it implements returns the state unchanged and dispatches no
notification. -/
theorem node_noop_on_other_stage (n : NodeId) (s : ConversationState)
    (h : s.conversation_stage ≠ stage_of_node n) :
    runNode n s = (s, []) := by
  cases n <;>
    simp_all [runNode, stage_of_node, greeting_node, discovery_node, location_node,
      timing_node, scale_node, frequency_node, preferences_node,
      get_restaurant_partners_node, contact_capture_node, email_collection_node,
      handoff_node]

/-- C5 witness: the greeting node run on a state already at `discovery`
changes nothing. -/
theorem node_noop_on_other_stage_witness :
    ({ initialState with conversation_stage := "discovery" } : ConversationState).conversation_stage
        ≠ stage_of_node NodeId.greeting
    ∧ runNode NodeId.greeting { initialState with conversation_stage := "discovery" }
        = ({ initialState with conversation_stage := "discovery" }, []) :=
  ⟨by decide, node_noop_on_other_stage NodeId.greeting
    { initialState with conversation_stage := "discovery" } (by decide)⟩

set_option maxRecDepth 16384 in
/-- C3: in `scale_node`, when the inbound message has a digit run the
first run becomes `headcount` and `meets_minimum` is derived as
`headcount >= 20` (true for every parsed value at least 20, false below);
with no digits both fields are left untouched (so a `None` stays `None`);
and no node other than `scale` ever writes `meets_minimum`. -/
theorem scale_node_meets_minimum (s : ConversationState) :
    (s.conversation_stage = "scale" →
      (∀ ds rest, findall_digits (lastContent s.messages) = ds :: rest →
        (scale_node s).headcount = some (digitsToNat ds : Int)
        ∧ (20 ≤ digitsToNat ds → (scale_node s).meets_minimum = some true)
        ∧ (digitsToNat ds < 20 → (scale_node s).meets_minimum = some false))
      ∧ (findall_digits (lastContent s.messages) = [] →
        (scale_node s).headcount = s.headcount
        ∧ (scale_node s).meets_minimum = s.meets_minimum))
    ∧ (∀ n : NodeId, n ≠ NodeId.scale →
        ((runNode n s).1).meets_minimum = s.meets_minimum) := by
  constructor
  · intro hs
    constructor
    · intro ds rest hfind
      simp only [scale_node, hs, ne_eq, not_true_eq_false, if_false, hfind]
      refine ⟨?_, ?_, ?_⟩ <;> split <;>
        first
        | rfl
        | (intro hd
           simp only [Option.some.injEq, decide_eq_true_eq, decide_eq_false_iff_not]
           omega)
    · intro hfind
      simp only [scale_node, hs, ne_eq, not_true_eq_false, if_false, hfind]
      constructor <;> split <;> rfl
  · intro n hn
    cases n <;>
      first
      | exact absurd rfl hn
      | (simp only [runNode, greeting_node, discovery_node, location_node,
           timing_node, frequency_node, preferences_node,
           get_restaurant_partners_node, contact_capture_node,
           email_collection_node, handoff_node]
         repeat' split
         all_goals rfl)

/-- The concrete scale-stage state of the C3 witness: a recurring lead
answering "45 people". -/
def c3_state : ConversationState :=
  { initialState with
      conversation_stage := "scale"
      user_need := some "recurring"
      messages := [⟨Role.human, "45 people".data⟩] }

/-- C3 witness: on `c3_state` the scale node parses headcount 45 and
derives a true `meets_minimum`, and the greeting node never touches
`meets_minimum`. -/
theorem scale_node_meets_minimum_witness :
    (scale_node c3_state).headcount = some (45 : Int)
    ∧ (scale_node c3_state).meets_minimum = some true
    ∧ ((runNode NodeId.greeting c3_state).1).meets_minimum = c3_state.meets_minimum := by
  have h := scale_node_meets_minimum c3_state
  have h1 := ((h.1 rfl).1 "45".data [] (by decide))
  exact ⟨by rw [h1.1]; decide, h1.2.1 (by decide), h.2 NodeId.greeting (by decide)⟩

/-- C9: in `discovery_node` the one-time keyword set is tested before the
recurring set, so a message hitting both sets is classified `one-time`,
never `recurring`. -/
theorem discovery_one_time_precedence (s : ConversationState)
    (hs : s.conversation_stage = "discovery")
    (h1 : ["meeting", "event", "one-time", "once"].any
        (fun w => listContains (pyLower (lastContent s.messages)) w.data) = true)
    (h2 : ["recurring", "daily", "weekly", "program", "regular"].any
        (fun w => listContains (pyLower (lastContent s.messages)) w.data) = true) :
    (discovery_node s).user_need = some "one-time" := by
  simp only [discovery_node, hs, ne_eq, not_true_eq_false, if_false, h1, if_true]

/-- The concrete discovery-stage state of the C9 witness: the inbound
message "weekly team meeting" holds a keyword of both sets. -/
def c9_state : ConversationState :=
  { initialState with
      conversation_stage := "discovery"
      messages := [⟨Role.human, "weekly team meeting".data⟩] }

/-- C9 witness: "weekly team meeting" contains both "meeting" and
"weekly" and is classified one-time. -/
theorem discovery_one_time_precedence_witness :
    ["meeting", "event", "one-time", "once"].any
        (fun w => listContains (pyLower (lastContent c9_state.messages)) w.data) = true
    ∧ ["recurring", "daily", "weekly", "program", "regular"].any
        (fun w => listContains (pyLower (lastContent c9_state.messages)) w.data) = true
    ∧ (discovery_node c9_state).user_need = some "one-time" :=
  ⟨by decide, by decide,
    discovery_one_time_precedence c9_state rfl (by decide) (by decide)⟩

/-! ## The notification-at-most-once argument -/

/-- The position of each stage in the pipeline's forward order (unknown
stage strings are absorbing: no node matches them). -/
def stageRank (stage : String) : Nat :=
  if stage = "greeting" then 0
  else if stage = "discovery" then 1
  else if stage = "location" then 2
  else if stage = "timing" then 3
  else if stage = "scale" then 4
  else if stage = "frequency" then 5
  else if stage = "preferences" then 6
  else if stage = "restaurant_partners" then 7
  else if stage = "contact_capture" then 8
  else if stage = "email_collection" then 9
  else if stage = "handoff" then 10
  else if stage = "complete" then 11
  else if stage = "end" then 12
  else 13

set_option maxRecDepth 16384 in
/-- Every node either leaves the state unchanged or advances the stage:
the stage rank never decreases. -/
lemma runNode_stage_mono (n : NodeId) (s : ConversationState) :
    stageRank s.conversation_stage ≤ stageRank ((runNode n s).1.conversation_stage) := by
  cases n
  case greeting =>
    show stageRank s.conversation_stage ≤ stageRank (greeting_node s).conversation_stage
    by_cases h : s.conversation_stage = "greeting"
    · have h2 : (greeting_node s).conversation_stage = "discovery" := by
        unfold greeting_node; rw [if_neg (by simp [h])]
      rw [h2, h]; decide
    · have h2 : greeting_node s = s := by
        unfold greeting_node; rw [if_pos (by simp [h])]
      rw [h2]
  case discovery =>
    show stageRank s.conversation_stage ≤ stageRank (discovery_node s).conversation_stage
    by_cases h : s.conversation_stage = "discovery"
    · have h2 : (discovery_node s).conversation_stage = "location" := by
        unfold discovery_node; rw [if_neg (by simp [h])]
      rw [h2, h]; decide
    · have h2 : discovery_node s = s := by
        unfold discovery_node; rw [if_pos (by simp [h])]
      rw [h2]
  case location =>
    show stageRank s.conversation_stage ≤ stageRank (location_node s).conversation_stage
    by_cases h : s.conversation_stage = "location"
    · have h2 : (location_node s).conversation_stage = "timing" := by
        unfold location_node; rw [if_neg (by simp [h])]
        dsimp only
        split <;> rfl
      rw [h2, h]; decide
    · have h2 : location_node s = s := by
        unfold location_node; rw [if_pos (by simp [h])]
      rw [h2]
  case timing =>
    show stageRank s.conversation_stage ≤ stageRank (timing_node s).conversation_stage
    by_cases h : s.conversation_stage = "timing"
    · have h2 : (timing_node s).conversation_stage = "scale" := by
        unfold timing_node; rw [if_neg (by simp [h])]
      rw [h2, h]; decide
    · have h2 : timing_node s = s := by
        unfold timing_node; rw [if_pos (by simp [h])]
      rw [h2]
  case scale =>
    show stageRank s.conversation_stage ≤ stageRank (scale_node s).conversation_stage
    by_cases h : s.conversation_stage = "scale"
    · have h2 : (scale_node s).conversation_stage = "frequency"
          ∨ (scale_node s).conversation_stage = "preferences" := by
        unfold scale_node; rw [if_neg (by simp [h])]
        dsimp only
        repeat' split
        all_goals simp
      rcases h2 with h2 | h2 <;> rw [h2, h] <;> decide
    · have h2 : scale_node s = s := by
        unfold scale_node; rw [if_pos (by simp [h])]
      rw [h2]
  case frequency =>
    show stageRank s.conversation_stage ≤ stageRank (frequency_node s).conversation_stage
    by_cases h : s.conversation_stage = "frequency"
    · have h2 : (frequency_node s).conversation_stage = "preferences" := by
        unfold frequency_node; rw [if_neg (by simp [h])]
      rw [h2, h]; decide
    · have h2 : frequency_node s = s := by
        unfold frequency_node; rw [if_pos (by simp [h])]
      rw [h2]
  case preferences =>
    show stageRank s.conversation_stage ≤ stageRank (preferences_node s).conversation_stage
    by_cases h : s.conversation_stage = "preferences"
    · have h2 : (preferences_node s).conversation_stage = "restaurant_partners" := by
        unfold preferences_node; rw [if_neg (by simp [h])]
      rw [h2, h]; decide
    · have h2 : preferences_node s = s := by
        unfold preferences_node; rw [if_pos (by simp [h])]
      rw [h2]
  case restaurant_partners =>
    show stageRank s.conversation_stage
        ≤ stageRank (get_restaurant_partners_node s).conversation_stage
    by_cases h : s.conversation_stage = "restaurant_partners"
    · have h2 : (get_restaurant_partners_node s).conversation_stage = "contact_capture" := by
        unfold get_restaurant_partners_node; rw [if_neg (by simp [h])]
        dsimp only
        split <;> rfl
      rw [h2, h]; decide
    · have h2 : get_restaurant_partners_node s = s := by
        unfold get_restaurant_partners_node; rw [if_pos (by simp [h])]
      rw [h2]
  case contact_capture =>
    show stageRank s.conversation_stage ≤ stageRank (contact_capture_node s).conversation_stage
    by_cases h : s.conversation_stage = "contact_capture"
    · have h2 : (contact_capture_node s).conversation_stage = "email_collection"
          ∨ (contact_capture_node s).conversation_stage = "end" := by
        unfold contact_capture_node; rw [if_neg (by simp [h])]
        dsimp only
        split <;> simp
      rcases h2 with h2 | h2 <;> rw [h2, h] <;> decide
    · have h2 : contact_capture_node s = s := by
        unfold contact_capture_node; rw [if_pos (by simp [h])]
      rw [h2]
  case email_collection =>
    show stageRank s.conversation_stage
        ≤ stageRank ((email_collection_node s).1.conversation_stage)
    by_cases h : s.conversation_stage = "email_collection"
    · have h2 : (email_collection_node s).1.conversation_stage = "handoff" := by
        unfold email_collection_node; rw [if_neg (by simp [h])]
      rw [h2, h]; decide
    · have h2 : email_collection_node s = (s, []) := by
        unfold email_collection_node; rw [if_pos (by simp [h])]
      rw [h2]
  case handoff =>
    show stageRank s.conversation_stage ≤ stageRank (handoff_node s).conversation_stage
    by_cases h : s.conversation_stage = "handoff"
    · have h2 : (handoff_node s).conversation_stage = "complete" := by
        unfold handoff_node; rw [if_neg (by simp [h])]
      rw [h2, h]; decide
    · have h2 : handoff_node s = s := by
        unfold handoff_node; rw [if_pos (by simp [h])]
      rw [h2]

/-- Only the email-collection step dispatches, exactly one notification,
and it moves the stage from `email_collection` to `handoff`. -/
lemma runNode_notif (n : NodeId) (s : ConversationState)
    (h : (runNode n s).2 ≠ []) :
    s.conversation_stage = "email_collection"
    ∧ (runNode n s).1.conversation_stage = "handoff"
    ∧ (runNode n s).2.length = 1 := by
  cases n <;>
    simp only [runNode, email_collection_node] at h ⊢ <;>
    first
    | exact absurd rfl h
    | (split at h <;> simp_all)

/-- Once the stage has passed `email_collection` (rank at least 10), no
later node invocation ever dispatches a notification. -/
lemma runNodes_notif_zero (ns : List NodeId) :
    ∀ s : ConversationState, 10 ≤ stageRank s.conversation_stage →
      (runNodes ns s).2 = 0 := by
  induction ns with
  | nil => intro s _; rfl
  | cons n ns ih =>
    intro s h
    simp only [runNodes]
    have hlen : (runNode n s).2.length = 0 := by
      by_cases hne : (runNode n s).2 = []
      · simp [hne]
      · rcases runNode_notif n s hne with ⟨h1, _, _⟩
        rw [h1] at h
        simp [stageRank] at h
    rw [hlen, ih ((runNode n s).1) (le_trans h (runNode_stage_mono n s))]

/-- Any run from any state dispatches at most one notification. -/
lemma runNodes_le_one (ns : List NodeId) :
    ∀ s : ConversationState, (runNodes ns s).2 ≤ 1 := by
  induction ns with
  | nil => intro s; simp [runNodes]
  | cons n ns ih =>
    intro s
    simp only [runNodes]
    by_cases hne : (runNode n s).2 = []
    · simpa [hne] using ih ((runNode n s).1)
    · rcases runNode_notif n s hne with ⟨_, h2, h3⟩
      have hz : (runNodes ns ((runNode n s).1)).2 = 0 :=
        runNodes_notif_zero ns _ (by rw [h2]; decide)
      omega

/-- C6: across every finite sequence of stage-node invocations starting
from a fresh session (stage `greeting`, `ready_for_handoff` false), the
notification sink is invoked at most once: the stage rank only moves
forward, a dispatch happens only at `email_collection`, and that step
advances the stage past it. -/
theorem notification_at_most_once (ns : List NodeId) (s : ConversationState)
    (h1 : s.conversation_stage = "greeting") (h2 : s.ready_for_handoff = false) :
    (runNodes ns s).2 ≤ 1 :=
  runNodes_le_one ns s

/-- C6 witness: a run of the full pipeline order (with the email step
repeated) from the fresh state dispatches at most one notification. -/
theorem notification_at_most_once_witness :
    (runNodes [NodeId.greeting, NodeId.discovery, NodeId.email_collection,
      NodeId.email_collection] initialState).2 ≤ 1 :=
  notification_at_most_once _ initialState rfl rfl

/-! ## Claim C2: the handoff qualification versus the scorer -/

/-- The qualification rule `email_collection_node` actually applies
(stated separately to compare the node against it): `Qualified` when the
service-area flag and `meets_minimum` are both truthy, else `Maybe` when
the service-area flag is truthy or the headcount is known, nonzero and at
least 10, else `Not Qualified`.  This is NOT the §4.2 scorer. -/
def email_collection_qual_rule (is_in_service_area meets_minimum : Option Bool)
    (headcount : Option Int) : String :=
  if pyOptBool is_in_service_area && pyOptBool meets_minimum then
    "Qualified"
  else if pyOptBool is_in_service_area
      || (pyOptIntTruthy headcount && decide ((10 : Int) ≤ headcount.getD 0)) then
    "Maybe"
  else
    "Not Qualified"

/-- C2 (amended): on every state at stage `email_collection` the node
stores `email_collection_qual_rule` of the state's three qualification
fields — its own truthiness-based rule, not the §4.2 scorer's status —
and reports the same status in the single dispatched notification. -/
theorem email_collection_qual_spec (s : ConversationState)
    (hs : s.conversation_stage = "email_collection") :
    (email_collection_node s).1.qualification_status
        = some (email_collection_qual_rule s.is_in_service_area s.meets_minimum s.headcount)
    ∧ ((email_collection_node s).2.map Notification.status)
        = [email_collection_qual_rule s.is_in_service_area s.meets_minimum s.headcount]
    ∧ (email_collection_node s).1.contact_email
        = some (pyStrip (lastContent s.messages)) := by
  unfold email_collection_node email_collection_qual_rule
  rw [if_neg (by simp [hs])]
  exact ⟨rfl, rfl, rfl⟩

/-- An inbound chat turn: the driver appends the user's message to the
transcript before the next node runs (spec §2, control flow). -/
def pushHuman (text : String) (s : ConversationState) : ConversationState :=
  { s with messages := s.messages ++ [⟨Role.human, text.data⟩] }

/-- A state reached from the fresh session by running the pipeline with
a recurring lead in New York who never gives a number of people: at stage
`email_collection` it has `is_in_service_area = some true`,
`headcount = none`, `user_need = some "recurring"`. -/
def c2_pre : ConversationState :=
  pushHuman "sarah.johnson@techcorp.com"
    (contact_capture_node (pushHuman "yes please"
      (get_restaurant_partners_node (preferences_node (pushHuman "Italian"
        (frequency_node (pushHuman "Daily"
          (scale_node (pushHuman "not sure yet"
            (timing_node (pushHuman "next month"
              (location_node (pushHuman "New York"
                (discovery_node (pushHuman "daily lunches for my office"
                  (greeting_node initialState))))))))))))))))

/-- C2 counterexample: on the reachable state `c2_pre` (stage
`email_collection`, in service area, unknown headcount, recurring need)
the node stores `Maybe` while `calculate_lead_score` on the same three
fields returns `Qualified` (score 70) — the handoff qualification and the
§4.2 scorer disagree. -/
theorem email_collection_disagrees_with_scorer :
    c2_pre.conversation_stage = "email_collection"
    ∧ c2_pre.is_in_service_area = some true
    ∧ c2_pre.headcount = none
    ∧ c2_pre.user_need = some "recurring"
    ∧ (email_collection_node c2_pre).1.qualification_status = some "Maybe"
    ∧ (calculate_lead_score true none (some "recurring") 20).status = "Qualified" :=
  ⟨by decide, by decide, by decide, by decide, by decide, by decide⟩

/-- C2 witness: the amended rule evaluated on the concrete reachable
state `c2_pre`. -/
theorem email_collection_qual_spec_witness :
    (email_collection_node c2_pre).1.qualification_status
        = some (email_collection_qual_rule c2_pre.is_in_service_area
            c2_pre.meets_minimum c2_pre.headcount)
    ∧ ((email_collection_node c2_pre).2.map Notification.status)
        = [email_collection_qual_rule c2_pre.is_in_service_area
            c2_pre.meets_minimum c2_pre.headcount]
    ∧ (email_collection_node c2_pre).1.contact_email
        = some (pyStrip (lastContent c2_pre.messages)) :=
  email_collection_qual_spec c2_pre (by decide)
